import Mathlib

/-!
Verification of the recipe-app-api user API and Tag/Ingredient serializers.

The repository surface consists of the Tag/Ingredient serializer declarations
(src/app/recipe/serializers.py) and the user-API integration tests
(src/app/users/tests/test_user_api.py).  The user endpoints, the user model
and the token mechanism themselves are framework collaborators not present
under src/, so they are modelled from the specification (sections 3, 4.1-4.3
and 6 of spec.md); each such definition is marked `Modelled from the spec:`.
-/

/-- Wire value of a response-body or request-body field: JSON integer or string. -/
inductive FieldVal where
  | nat (n : Nat)
  | str (s : String)
deriving DecidableEq

/-- Response and request bodies are flat dictionaries: key/value association lists. -/
abbrev Body := List (String × FieldVal)

/-- Whether a key is present in a body dictionary. -/
def hasKey (k : String) (body : Body) : Bool :=
  body.any (fun kv => kv.1 == k)

/-- Look up the value bound to a key in a body dictionary. -/
def lookupField (k : String) (body : Body) : Option FieldVal :=
  (body.find? (fun kv => kv.1 == k)).map (fun kv => kv.2)

/-- Modelled from the spec: a User record of the record store holds identity
email, name, and the password stored only as a one-way hash (spec section 3). -/
structure User where
  email : String
  name : String
  passwordHash : String
deriving DecidableEq

/-- Modelled from the spec: the framework one-way password hash, never
round-tripped.  Modelled as an injective tagging function: the claims only
rely on a hash verifying exactly the password it was produced from. -/
def hashPassword (p : String) : String := "#" ++ p

/-- Modelled from the spec: verification of a candidate password against the
stored hash (the framework user model delegate). -/
def checkPassword (u : User) (p : String) : Bool :=
  u.passwordHash == hashPassword p

/-- Modelled from the spec: email format validation (spec section 4.1
"validates email format"): the address contains an @ that is neither its
first nor its last character. -/
def validEmail (e : String) : Bool :=
  e.data.contains '@' && e.data.head? != some '@' && e.data.getLast? != some '@'

/-- Registration payload of POST /users/create (spec section 4.1). -/
structure CreatePayload where
  email : String
  password : String
  name : String
deriving DecidableEq

/-- Modelled from the spec: the serialized user returned on success, which
excludes the password (spec section 4.1). -/
def serializeUser (u : User) : Body :=
  [("email", .str u.email), ("name", .str u.name)]

/-- Whether some user of the record store already owns the given email. -/
def emailTaken (store : List User) (e : String) : Bool :=
  store.any (fun u => u.email == e)

/-- The user record a successful registration persists. -/
def mkUser (p : CreatePayload) : User :=
  ⟨p.email, p.name, hashPassword p.password⟩

/-- Modelled from the spec: the POST /users/create endpoint (spec section 4.1).
Validates email format, email uniqueness and password length (>5 characters).
On success it creates the User and returns 201 with the serialized user; on
failure it returns 400 and creates no record.  Result: (status, body, store). -/
def createUser (store : List User) (p : CreatePayload) : Nat × Body × List User :=
  if validEmail p.email then
    if emailTaken store p.email then
      (400, [("email", .str "user with this email already exists")], store)
    else if p.password.length ≤ 5 then
      (400, [("password", .str "password is too short")], store)
    else
      let u := mkUser p
      (201, serializeUser u, store ++ [u])
  else
    (400, [("email", .str "enter a valid email address")], store)

/-- Find the user owning an email in the record store. -/
def findUser (store : List User) (e : String) : Option User :=
  store.find? (fun u => u.email == e)

/-- Modelled from the spec: the opaque bearer token bound 1:1 to a User
(spec section 3). -/
def mkToken (u : User) : String := "token-" ++ u.email

/-- Modelled from the spec: the POST /users/token endpoint (spec section 4.2).
Empty or missing fields fail; otherwise the User is looked up by email and the
password verified against the stored hash.  Success: 200 with a token field;
failure: 400 with no token field.  Result: (status, body). -/
def createToken (store : List User) (email password : String) : Nat × Body :=
  if email == "" || password == "" then
    (400, [("non_field_errors", .str "email and password are required")])
  else
    match findUser store email with
    | none => (400, [("non_field_errors", .str "unable to authenticate with provided credentials")])
    | some u =>
      if checkPassword u password then
        (200, [("token", .str (mkToken u))])
      else
        (400, [("non_field_errors", .str "unable to authenticate with provided credentials")])

/-- Invariant of the record store maintained by the registration policy
(spec section 3): every stored user has a well-formed email, and the stored
hash was produced from a password of length >5, so the empty password never
verifies. -/
def wellFormedStore (store : List User) : Bool :=
  store.all (fun u => validEmail u.email && !(checkPassword u ""))

/-- HTTP methods the /users/me endpoint distinguishes (spec section 4.3). -/
inductive HttpMethod where
  | get
  | post
  | patch
deriving DecidableEq

/-- Partial update payload of PATCH /users/me (spec section 4.3). -/
structure PatchPayload where
  name : Option String
  password : Option String
deriving DecidableEq

/-- Modelled from the spec: the profile body returned by /users/me, exactly
the name and email of the authenticated user (spec section 4.3). -/
def serializeMe (u : User) : Body :=
  [("name", .str u.name), ("email", .str u.email)]

/-- Modelled from the spec: applying a partial PATCH payload to the
authenticated user, updating the supplied fields and re-hashing the password
when one is supplied (spec section 4.3). -/
def patchUser (u : User) (pl : PatchPayload) : User :=
  { email := u.email
    name := pl.name.getD u.name
    passwordHash :=
      match pl.password with
      | some p => hashPassword p
      | none => u.passwordHash }

/-- Modelled from the spec: the /users/me endpoint (spec section 4.3).  It
requires a valid bearer token, so a request without credentials gets 401;
authenticated GET returns 200 with exactly the name/email profile,
authenticated PATCH updates the user and returns 200, and authenticated POST
is always 405.  `auth` is the user the framework resolved from the bearer
token, if any.  Result: (status, body, store). -/
def meHandle (store : List User) (auth : Option User) (method : HttpMethod)
    (pl : PatchPayload) : Nat × Body × List User :=
  match auth with
  | none => (401, [("detail", .str "authentication credentials were not provided")], store)
  | some u =>
    match method with
    | .get => (200, serializeMe u, store)
    | .post => (405, [("detail", .str "method POST not allowed")], store)
    | .patch =>
      let u2 := patchUser u pl
      (200, serializeMe u2, store.map (fun v => if v.email == u.email then u2 else v))

/-- A Tag record: system-assigned numeric id and a name (core.models.Tag,
shape per spec section 3). -/
structure Tag where
  id : Nat
  name : String
deriving DecidableEq

/-- An Ingredient record: system-assigned numeric id and a name
(core.models.Ingredient, shape per spec section 3). -/
structure Ingredient where
  id : Nat
  name : String
deriving DecidableEq

/-- Field list declared by TagSerializer.Meta in src/app/recipe/serializers.py. -/
def TagSerializer.fields : List String := ["id", "name"]

/-- Read-only field list declared by TagSerializer.Meta in
src/app/recipe/serializers.py. -/
def TagSerializer.read_only_fields : List String := ["id"]

/-- Serialization of a Tag record: the wire dictionary restricted to the
declared fields, id then name. -/
def TagSerializer.toRepresentation (t : Tag) : Body :=
  [("id", .nat t.id), ("name", .str t.name)]

/-- Validation of an input wire dictionary by TagSerializer.  The writable
fields are the declared fields minus the read-only ones, so only name is
consumed: it must be present, a string, and non-blank; an id entry in the
input is never consumed (id is read-only).  On success the validated data
holds exactly the name. -/
def TagSerializer.runValidation (input : Body) : Except String Body :=
  match lookupField "name" input with
  | some (.str s) => if s == "" then .error "this field may not be blank" else .ok [("name", .str s)]
  | some (.nat _) => .error "not a valid string"
  | none => .error "this field is required"

/-- Construction of a new Tag from validated data: the id is system-assigned,
never taken from the input. -/
def TagSerializer.create (nextId : Nat) (vd : Body) : Tag :=
  match lookupField "name" vd with
  | some (.str s) => ⟨nextId, s⟩
  | _ => ⟨nextId, ""⟩

/-- Update of an existing Tag from validated data: the name is replaced, the
id is kept (read-only). -/
def TagSerializer.update (t : Tag) (vd : Body) : Tag :=
  match lookupField "name" vd with
  | some (.str s) => ⟨t.id, s⟩
  | _ => t

/-- Field list declared by IngredientSerializer.Meta in
src/app/recipe/serializers.py. -/
def IngredientSerializer.fields : List String := ["id", "name"]

/-- Read-only field list declared by IngredientSerializer.Meta in
src/app/recipe/serializers.py. -/
def IngredientSerializer.read_only_fields : List String := ["id"]

/-- Serialization of an Ingredient record: the wire dictionary restricted to
the declared fields, id then name. -/
def IngredientSerializer.toRepresentation (i : Ingredient) : Body :=
  [("id", .nat i.id), ("name", .str i.name)]

/-- Validation of an input wire dictionary by IngredientSerializer, with the
same declared fields and read-only set as TagSerializer. -/
def IngredientSerializer.runValidation (input : Body) : Except String Body :=
  match lookupField "name" input with
  | some (.str s) => if s == "" then .error "this field may not be blank" else .ok [("name", .str s)]
  | some (.nat _) => .error "not a valid string"
  | none => .error "this field is required"

/-- Construction of a new Ingredient from validated data: the id is
system-assigned, never taken from the input. -/
def IngredientSerializer.create (nextId : Nat) (vd : Body) : Ingredient :=
  match lookupField "name" vd with
  | some (.str s) => ⟨nextId, s⟩
  | _ => ⟨nextId, ""⟩

/-- Update of an existing Ingredient from validated data: the name is
replaced, the id is kept (read-only). -/
def IngredientSerializer.update (i : Ingredient) (vd : Body) : Ingredient :=
  match lookupField "name" vd with
  | some (.str s) => ⟨i.id, s⟩
  | _ => i

/-- Whether a validation result is a success. -/
def validationOk (r : Except String Body) : Bool :=
  match r with
  | .ok _ => true
  | .error _ => false

/-- Top-level declaration of a Python module: a class with its base list and
method names, or a plain function with its parameter list. -/
inductive PyDecl where
  | classDecl (name : String) (bases : List String) (methods : List String)
  | defDecl (name : String) (params : List String)
deriving DecidableEq

/-- The top-level declarations of src/app/users/tests/test_user_api.py:
create_user and PrivateUserApiTests are plain functions (PrivateUserApiTests
takes TestCase as a parameter), PublicUserApiTests is a TestCase subclass. -/
def test_user_api_module : List PyDecl :=
  [ .defDecl "create_user" ["**params"],
    .classDecl "PublicUserApiTests" ["TestCase"]
      [ "setUp",
        "test_create_valid_user_success",
        "test_user_exist",
        "test_password_too_short",
        "test_create_token_for_user",
        "test_create_token_invalid_credentials",
        "test_create_token_no_user",
        "test_create_token_missing_field",
        "test_retreive_user_unauthorized" ],
    .defDecl "PrivateUserApiTests" ["TestCase"] ]

/-- Whether a method name is a test method the runner collects. -/
def isTestMethod (s : String) : Bool :=
  "test_".data.isPrefixOf s.data

/-- Test collection over a module: the runner gathers the test_* methods of
every class deriving from TestCase; plain functions contribute nothing. -/
def collectedTests (m : List PyDecl) : List String :=
  m.foldr
    (fun d acc =>
      match d with
      | .classDecl _ bases methods =>
        (if "TestCase" ∈ bases then methods.filter isTestMethod else []) ++ acc
      | .defDecl _ _ => acc)
    []

/-- A Python runtime value, as far as truthiness of unittest assertions is
concerned: a string, a boolean, or a bound method object. -/
inductive PyVal where
  | pyStr (s : String)
  | pyBool (b : Bool)
  | pyMethod (owner : String) (methodName : String)
deriving DecidableEq

/-- Python truthiness: empty strings and False are falsy; a bound method
object is always truthy. -/
def pyTruthy : PyVal → Bool
  | .pyStr s => !(s == "")
  | .pyBool b => b
  | .pyMethod _ _ => true

/-- The unittest assertTrue assertion: it checks the truthiness of its first
argument only; the second positional argument is the failure message. -/
def assertTrue (v : PyVal) (_msg : PyVal) : Bool :=
  pyTruthy v

/-- The attribute lookup self.user.check_password in test_update_user_profile:
it yields the bound method object, not a call result. -/
def checkPasswordBoundMethod (u : User) : PyVal :=
  .pyMethod u.email "check_password"

/-- The password assertion executed by test_update_user_profile, line
self.assertTrue(self.user.check_password, payload[quoted password]): the bound
method is the asserted value and the new password is the message argument. -/
def updateProfilePasswordAssertion (u : User) : Bool :=
  assertTrue (checkPasswordBoundMethod u) (.pyStr "newpasspass")

/-- The modelled password hash is injective: a hash verifies exactly the
password it was produced from. -/
theorem hashPassword_inj {p q : String} (h : hashPassword p = hashPassword q) : p = q := by
  have hd : ("#" ++ p).data = ("#" ++ q).data := congrArg String.data h
  rw [String.data_append, String.data_append] at hd
  have h2 := List.append_cancel_left hd
  cases p; cases q; simp_all

/-- Claim C1: a registration request with a well-formed unused email and a
password longer than 5 characters succeeds: POST /users/create returns 201,
the body is the serialized user with no password key, and exactly the new
User record is appended to the store. -/
theorem create_user_valid_success (store : List User) (p : CreatePayload)
    (h1 : validEmail p.email = true) (h2 : emailTaken store p.email = false)
    (h3 : 5 < p.password.length) :
    (createUser store p).1 = 201 ∧
    (createUser store p).2.1 = serializeUser (mkUser p) ∧
    hasKey "password" (createUser store p).2.1 = false ∧
    (createUser store p).2.2 = store ++ [mkUser p] := by
  have h3n : ¬ (p.password.length ≤ 5) := Nat.not_le.mpr h3
  refine ⟨?_, ?_, ?_, ?_⟩ <;>
    simp [createUser, h1, h2, h3n, hasKey, serializeUser, mkUser]

/-- Witness for create_user_valid_success at a concrete registration. -/
theorem create_user_valid_success_witness :
    (validEmail "test@dev.com" = true ∧ emailTaken [] "test@dev.com" = false ∧
      5 < ("passpass" : String).length) ∧
    ((createUser [] ⟨"test@dev.com", "passpass", "testname"⟩).1 = 201 ∧
      (createUser [] ⟨"test@dev.com", "passpass", "testname"⟩).2.1
        = serializeUser (mkUser ⟨"test@dev.com", "passpass", "testname"⟩) ∧
      hasKey "password" (createUser [] ⟨"test@dev.com", "passpass", "testname"⟩).2.1 = false ∧
      (createUser [] ⟨"test@dev.com", "passpass", "testname"⟩).2.2
        = [] ++ [mkUser ⟨"test@dev.com", "passpass", "testname"⟩]) :=
  ⟨⟨by decide, by decide, by decide⟩,
    create_user_valid_success [] ⟨"test@dev.com", "passpass", "testname"⟩
      (by decide) (by decide) (by decide)⟩

/-- Claim C2: a registration request whose email is already taken or whose
password has length at most 5 fails: POST /users/create returns 400 and the
record store is unchanged. -/
theorem create_user_invalid_rejected (store : List User) (p : CreatePayload)
    (h : emailTaken store p.email = true ∨ p.password.length ≤ 5) :
    (createUser store p).1 = 400 ∧ (createUser store p).2.2 = store := by
  unfold createUser
  by_cases hv : validEmail p.email = true
  · rcases h with h | h
    · simp [hv, h]
    · by_cases ht : emailTaken store p.email = true
      · simp [hv, ht]
      · simp [hv, ht, h]
  · simp [hv]

/-- Witness for create_user_invalid_rejected at a concrete duplicate email. -/
theorem create_user_invalid_rejected_witness :
    (emailTaken [⟨"test@dev.com", "Test", hashPassword "passpass"⟩] "test@dev.com" = true ∨
      ("passpass" : String).length ≤ 5) ∧
    ((createUser [⟨"test@dev.com", "Test", hashPassword "passpass"⟩]
        ⟨"test@dev.com", "passpass", "Test"⟩).1 = 400 ∧
      (createUser [⟨"test@dev.com", "Test", hashPassword "passpass"⟩]
        ⟨"test@dev.com", "passpass", "Test"⟩).2.2
        = [⟨"test@dev.com", "Test", hashPassword "passpass"⟩]) :=
  ⟨Or.inl (by decide),
    create_user_invalid_rejected [⟨"test@dev.com", "Test", hashPassword "passpass"⟩]
      ⟨"test@dev.com", "passpass", "Test"⟩ (Or.inl (by decide))⟩

/-- Claim C5: GET /users/me without credentials returns 401; with a valid
bearer token resolving to user u it returns 200 and the body is exactly the
dictionary with u's name and email and nothing else. -/
theorem me_endpoint_get_profile :
    (∀ (store : List User) (method : HttpMethod) (pl : PatchPayload),
      (meHandle store none method pl).1 = 401) ∧
    (∀ (store : List User) (u : User) (pl : PatchPayload),
      meHandle store (some u) .get pl
        = (200, [("name", FieldVal.str u.name), ("email", FieldVal.str u.email)], store)) :=
  ⟨fun _ _ _ => rfl, fun _ _ _ => rfl⟩

/-- Claim C7 amended: an authenticated POST to /users/me returns 405 and
leaves the record store unchanged. -/
theorem me_post_method_not_allowed :
    ∀ (store : List User) (u : User) (pl : PatchPayload),
      (meHandle store (some u) .post pl).1 = 405 ∧
      (meHandle store (some u) .post pl).2.2 = store :=
  fun _ _ _ => ⟨rfl, rfl⟩

/-- Claim C7 counterexample: an unauthenticated POST to /users/me is rejected
by the credential check with 401, not with 405 as the claim states for
requests that are not authenticated. -/
theorem me_post_unauthenticated_cex :
    (meHandle [] none .post ⟨none, none⟩).1 = 401 ∧
    (meHandle [] none .post ⟨none, none⟩).1 ≠ 405 := by
  decide

/-- Claim C9: PrivateUserApiTests is a plain function taking TestCase as a
parameter, so the tests collected from the module are exactly the test
methods of PublicUserApiTests and none of the three profile tests ever
executes. -/
theorem private_tests_never_collected :
    test_user_api_module.contains (PyDecl.defDecl "PrivateUserApiTests" ["TestCase"]) = true ∧
    (collectedTests test_user_api_module).contains "test_retrieve_profile_success" = false ∧
    (collectedTests test_user_api_module).contains "test_post_me_not_allowed" = false ∧
    (collectedTests test_user_api_module).contains "test_update_user_profile" = false ∧
    collectedTests test_user_api_module =
      [ "test_create_valid_user_success", "test_user_exist", "test_password_too_short",
        "test_create_token_for_user", "test_create_token_invalid_credentials",
        "test_create_token_no_user", "test_create_token_missing_field",
        "test_retreive_user_unauthorized" ] := by
  decide

/-- Claim C10: the password assertion of test_update_user_profile asserts the
truthiness of the bound method self.user.check_password itself, so it passes
for every user state; in particular it passes for a user whose stored
password is not the new password, so it does not constrain the update. -/
theorem password_assertion_vacuous :
    (∀ u : User, updateProfilePasswordAssertion u = true) ∧
    (∃ u : User, checkPassword u "newpasspass" = false ∧
      updateProfilePasswordAssertion u = true) :=
  ⟨fun _ => rfl,
    ⟨⟨"test@dev.com", "Test", hashPassword "passpass"⟩, by decide, rfl⟩⟩

/-- Claim C3: behaviour of POST /users/token over any record store satisfying
the registration invariant: matching email with verifying password gives 200
with a token key; missing user, wrong password, or empty/missing password
gives 400 with no token key. -/
theorem token_endpoint_behavior (store : List User) (email password : String)
    (hw : wellFormedStore store = true) :
    (∀ u : User, findUser store email = some u → checkPassword u password = true →
      (createToken store email password).1 = 200 ∧
      hasKey "token" (createToken store email password).2 = true) ∧
    ((findUser store email = none ∨ password = "" ∨
        (∀ u : User, findUser store email = some u → checkPassword u password = false)) →
      (createToken store email password).1 = 400 ∧
      hasKey "token" (createToken store email password).2 = false) := by
  constructor
  · intro u hfind hcp
    have hmem : u ∈ store := List.mem_of_find?_eq_some hfind
    have heq : u.email = email := by
      have hp := List.find?_some hfind
      simpa using hp
    have hval := List.all_eq_true.mp hw u hmem
    simp only [Bool.and_eq_true, Bool.not_eq_true'] at hval
    have hemail : (email == "") = false := by
      apply beq_eq_false_iff_ne.mpr
      intro h0
      rw [h0] at heq
      rw [heq] at hval
      exact absurd hval.1 (by decide)
    have hpass : (password == "") = false := by
      apply beq_eq_false_iff_ne.mpr
      intro h0
      rw [h0] at hcp
      rw [hval.2] at hcp
      exact Bool.false_ne_true hcp
    simp [createToken, hemail, hpass, hfind, hcp, hasKey]
  · intro hfail
    by_cases he : (email == "") = true
    · simp [createToken, he, hasKey]
    · by_cases hp : (password == "") = true
      · simp [createToken, hp, hasKey]
      · rcases hfail with hnone | h0 | hwrong
        · simp [createToken, he, hp, hnone, hasKey]
        · exact absurd (beq_iff_eq.mpr h0) (by simp [hp])
        · cases hfu : findUser store email with
          | none => simp [createToken, he, hp, hfu, hasKey]
          | some u => simp [createToken, he, hp, hfu, hwrong u hfu, hasKey]

/-- Witness for token_endpoint_behavior: correct credentials against a
one-user store give 200 with a token key. -/
theorem token_endpoint_behavior_witness :
    wellFormedStore [⟨"test@dev.com", "Test", hashPassword "passpass"⟩] = true ∧
    ((createToken [⟨"test@dev.com", "Test", hashPassword "passpass"⟩]
        "test@dev.com" "passpass").1 = 200 ∧
      hasKey "token" (createToken [⟨"test@dev.com", "Test", hashPassword "passpass"⟩]
        "test@dev.com" "passpass").2 = true) :=
  ⟨by decide,
    (token_endpoint_behavior [⟨"test@dev.com", "Test", hashPassword "passpass"⟩]
        "test@dev.com" "passpass" (by decide)).1
      ⟨"test@dev.com", "Test", hashPassword "passpass"⟩ (by decide) (by decide)⟩

/-- Looking up a key skips a leading entry bound to a different key. -/
theorem lookupField_cons_ne (k k2 : String) (x : FieldVal) (input : Body)
    (h : (k2 == k) = false) :
    lookupField k ((k2, x) :: input) = lookupField k input := by
  simp [lookupField, List.find?, h]

/-- Claim C4: TagSerializer and IngredientSerializer serialize a record to
exactly the id/name dictionary; validation succeeds exactly when the input
binds name to a non-empty string; an id entry in the input is never consumed
and the validated data never contains id; create assigns the system id and
update keeps the record id (id is read-only). -/
theorem tag_ingredient_serializer_contract :
    (∀ t : Tag, TagSerializer.toRepresentation t
      = [("id", FieldVal.nat t.id), ("name", FieldVal.str t.name)]) ∧
    (∀ i : Ingredient, IngredientSerializer.toRepresentation i
      = [("id", FieldVal.nat i.id), ("name", FieldVal.str i.name)]) ∧
    (∀ input : Body, validationOk (TagSerializer.runValidation input) = true ↔
      ∃ s, lookupField "name" input = some (FieldVal.str s) ∧ s ≠ "") ∧
    (∀ input : Body, validationOk (IngredientSerializer.runValidation input) = true ↔
      ∃ s, lookupField "name" input = some (FieldVal.str s) ∧ s ≠ "") ∧
    (∀ (input : Body) (x : FieldVal),
      TagSerializer.runValidation (("id", x) :: input) = TagSerializer.runValidation input) ∧
    (∀ (input : Body) (x : FieldVal),
      IngredientSerializer.runValidation (("id", x) :: input)
        = IngredientSerializer.runValidation input) ∧
    (∀ (input : Body) (vd : Body), TagSerializer.runValidation input = .ok vd →
      lookupField "id" vd = none) ∧
    (∀ (input : Body) (vd : Body), IngredientSerializer.runValidation input = .ok vd →
      lookupField "id" vd = none) ∧
    (∀ (nextId : Nat) (vd : Body), (TagSerializer.create nextId vd).id = nextId) ∧
    (∀ (nextId : Nat) (vd : Body), (IngredientSerializer.create nextId vd).id = nextId) ∧
    (∀ (t : Tag) (vd : Body), (TagSerializer.update t vd).id = t.id) ∧
    (∀ (i : Ingredient) (vd : Body), (IngredientSerializer.update i vd).id = i.id) := by
  refine ⟨fun t => rfl, fun i => rfl, ?_, ?_, ?_, ?_, ?_, ?_, ?_, ?_, ?_, ?_⟩
  · intro input
    cases hl : lookupField "name" input with
    | none => simp [TagSerializer.runValidation, hl, validationOk]
    | some fv =>
      cases fv with
      | nat m => simp [TagSerializer.runValidation, hl, validationOk]
      | str s =>
        by_cases hs : s = ""
        · subst hs; simp [TagSerializer.runValidation, hl, validationOk]
        · simp [TagSerializer.runValidation, hl, validationOk, hs]
  · intro input
    cases hl : lookupField "name" input with
    | none => simp [IngredientSerializer.runValidation, hl, validationOk]
    | some fv =>
      cases fv with
      | nat m => simp [IngredientSerializer.runValidation, hl, validationOk]
      | str s =>
        by_cases hs : s = ""
        · subst hs; simp [IngredientSerializer.runValidation, hl, validationOk]
        · simp [IngredientSerializer.runValidation, hl, validationOk, hs]
  · intro input x
    unfold TagSerializer.runValidation
    rw [lookupField_cons_ne "name" "id" x input (by decide)]
  · intro input x
    unfold IngredientSerializer.runValidation
    rw [lookupField_cons_ne "name" "id" x input (by decide)]
  · intro input vd h
    unfold TagSerializer.runValidation at h
    cases hl : lookupField "name" input with
    | none => rw [hl] at h; exact absurd h (by simp)
    | some fv =>
      cases fv with
      | nat m => rw [hl] at h; exact absurd h (by simp)
      | str s =>
        rw [hl] at h
        by_cases hs : s = ""
        · simp [hs] at h
        · simp [hs] at h
          rw [← h]
          rfl
  · intro input vd h
    unfold IngredientSerializer.runValidation at h
    cases hl : lookupField "name" input with
    | none => rw [hl] at h; exact absurd h (by simp)
    | some fv =>
      cases fv with
      | nat m => rw [hl] at h; exact absurd h (by simp)
      | str s =>
        rw [hl] at h
        by_cases hs : s = ""
        · simp [hs] at h
        · simp [hs] at h
          rw [← h]
          rfl
  · intro nextId vd
    unfold TagSerializer.create
    cases lookupField "name" vd with
    | none => rfl
    | some fv => cases fv <;> rfl
  · intro nextId vd
    unfold IngredientSerializer.create
    cases lookupField "name" vd with
    | none => rfl
    | some fv => cases fv <;> rfl
  · intro t vd
    unfold TagSerializer.update
    cases lookupField "name" vd with
    | none => rfl
    | some fv => cases fv <;> rfl
  · intro i vd
    unfold IngredientSerializer.update
    cases lookupField "name" vd with
    | none => rfl
    | some fv => cases fv <;> rfl

/-- Witness for tag_ingredient_serializer_contract: a concrete input with an
id entry and a non-empty name validates successfully. -/
theorem tag_ingredient_serializer_contract_witness :
    validationOk (TagSerializer.runValidation
      [("id", FieldVal.nat 7), ("name", FieldVal.str "vegan")]) = true :=
  (tag_ingredient_serializer_contract.2.2.1
      [("id", FieldVal.nat 7), ("name", FieldVal.str "vegan")]).mpr
    ⟨"vegan", by decide, by decide⟩

/-- Claim C6 counterexample: an authenticated PATCH /users/me whose supplied
password equals the current one returns 200, yet the old password still
authenticates afterwards, so the claim as stated fails at this request. -/
theorem me_patch_same_password_cex :
    (meHandle [⟨"test@dev.com", "Test", hashPassword "passpass"⟩]
        (some ⟨"test@dev.com", "Test", hashPassword "passpass"⟩) .patch
        ⟨some "new Test name", some "passpass"⟩).1 = 200 ∧
    checkPassword
      (patchUser ⟨"test@dev.com", "Test", hashPassword "passpass"⟩
        ⟨some "new Test name", some "passpass"⟩) "passpass" = true := by
  decide

/-- Claim C6 amended: an authenticated PATCH /users/me with a name and a
password that does not verify against the current hash returns 200, updates
the name, re-hashes the supplied password, and afterwards the new password
verifies while every previously verifying password no longer does. -/
theorem me_patch_updates_fields (store : List User) (u : User) (n p : String)
    (h : checkPassword u p = false) :
    (meHandle store (some u) .patch ⟨some n, some p⟩).1 = 200 ∧
    (patchUser u ⟨some n, some p⟩).name = n ∧
    (patchUser u ⟨some n, some p⟩).passwordHash = hashPassword p ∧
    checkPassword (patchUser u ⟨some n, some p⟩) p = true ∧
    (∀ q, checkPassword u q = true → checkPassword (patchUser u ⟨some n, some p⟩) q = false) := by
  refine ⟨rfl, rfl, rfl, ?_, ?_⟩
  · simp [checkPassword, patchUser]
  · intro q hq
    have hne : hashPassword p ≠ hashPassword q := by
      intro hpq
      have hpq2 : p = q := hashPassword_inj hpq
      rw [hpq2] at h
      rw [hq] at h
      exact absurd h (by simp)
    have hb : (hashPassword p == hashPassword q) = false := beq_eq_false_iff_ne.mpr hne
    simpa [checkPassword, patchUser] using hb

/-- Witness for me_patch_updates_fields at the concrete profile update of the
spec scenario. -/
theorem me_patch_updates_fields_witness :
    checkPassword ⟨"test@dev.com", "Test", hashPassword "passpass"⟩ "newpasspass" = false ∧
    ((meHandle [⟨"test@dev.com", "Test", hashPassword "passpass"⟩]
        (some ⟨"test@dev.com", "Test", hashPassword "passpass"⟩) .patch
        ⟨some "new Test name", some "newpasspass"⟩).1 = 200 ∧
      (patchUser ⟨"test@dev.com", "Test", hashPassword "passpass"⟩
        ⟨some "new Test name", some "newpasspass"⟩).name = "new Test name" ∧
      (patchUser ⟨"test@dev.com", "Test", hashPassword "passpass"⟩
        ⟨some "new Test name", some "newpasspass"⟩).passwordHash
        = hashPassword "newpasspass" ∧
      checkPassword (patchUser ⟨"test@dev.com", "Test", hashPassword "passpass"⟩
        ⟨some "new Test name", some "newpasspass"⟩) "newpasspass" = true ∧
      (∀ q, checkPassword ⟨"test@dev.com", "Test", hashPassword "passpass"⟩ q = true →
        checkPassword (patchUser ⟨"test@dev.com", "Test", hashPassword "passpass"⟩
          ⟨some "new Test name", some "newpasspass"⟩) q = false)) :=
  ⟨by decide,
    me_patch_updates_fields [⟨"test@dev.com", "Test", hashPassword "passpass"⟩]
      ⟨"test@dev.com", "Test", hashPassword "passpass"⟩
      "new Test name" "newpasspass" (by decide)⟩

/-- Claim C8: IngredientSerializer coincides with TagSerializer modulo the
underlying model: same declared fields, same read-only set, identical
serialization of a record with the same id and name, identical validation of
every input dictionary, and creation/update agree field by field. -/
theorem ingredient_tag_serializer_equiv :
    IngredientSerializer.fields = TagSerializer.fields ∧
    IngredientSerializer.read_only_fields = TagSerializer.read_only_fields ∧
    (∀ (n : Nat) (s : String),
      IngredientSerializer.toRepresentation ⟨n, s⟩ = TagSerializer.toRepresentation ⟨n, s⟩) ∧
    (∀ input : Body,
      IngredientSerializer.runValidation input = TagSerializer.runValidation input) ∧
    (∀ (nextId : Nat) (vd : Body),
      (IngredientSerializer.create nextId vd).id = (TagSerializer.create nextId vd).id ∧
      (IngredientSerializer.create nextId vd).name = (TagSerializer.create nextId vd).name) ∧
    (∀ (n : Nat) (s : String) (vd : Body),
      (IngredientSerializer.update ⟨n, s⟩ vd).id = (TagSerializer.update ⟨n, s⟩ vd).id ∧
      (IngredientSerializer.update ⟨n, s⟩ vd).name = (TagSerializer.update ⟨n, s⟩ vd).name) := by
  refine ⟨rfl, rfl, fun n s => rfl, fun input => rfl, fun nextId vd => ?_, fun n s vd => ?_⟩
  · unfold IngredientSerializer.create TagSerializer.create
    cases hl : lookupField "name" vd with
    | none => exact ⟨rfl, rfl⟩
    | some fv => cases fv <;> exact ⟨rfl, rfl⟩
  · unfold IngredientSerializer.update TagSerializer.update
    cases hl : lookupField "name" vd with
    | none => exact ⟨rfl, rfl⟩
    | some fv => cases fv <;> exact ⟨rfl, rfl⟩
